import Mathlib

/-!
# Verification of the FinSight audio pipeline core

Shallow embedding of:
* `pipeline/audio-to-transcript/components/transcription.py`
  (`transcribe_audio_segment`, `batch_transcribe_segments`,
  `create_complete_transcript`, `create_transcript_metadata`);
* `app/audio-event-handler/app.py`
  (`_get_or_create_experiment_id`, `_get_pipeline_id`, and the
  event-acceptance chain of `handle_event`).

External effects (the inference API, the KFP orchestration API, the clock
and `time.sleep`) are modelled by explicit oracles and observable traces:
every attempt against the inference endpoint, every sleep, and every
outbound KFP call is recorded in the returned value.  Python floats are
modelled as exact rationals, Python truthiness of optional strings by an
explicit `truthy` predicate, and Python dictionaries by structures with
all keys present (matching the Segment data model of the spec).
-/

namespace FinSight

/-- Floor of a rational, computed as the floor division of numerator by
denominator (kernel-reducible, unlike the `FloorRing` projection). -/
def ratFloor (x : ℚ) : Int := Int.fdiv x.num x.den

/-- Python `int()` on a rational: truncation toward zero. -/
def pyInt (x : ℚ) : Int := if 0 ≤ x then ratFloor x else -(ratFloor (-x))

/-- Python float `//` (floor division). -/
def pyFloordiv (x y : ℚ) : ℚ := (ratFloor (x / y) : Int)

/-- Python float `%` (remainder with the sign of the divisor;
we only use positive divisors, where it equals `x - y*⌊x/y⌋`). -/
def pyMod (x y : ℚ) : ℚ := x - y * ((ratFloor (x / y) : Int) : ℚ)

/-- Model of Python `str.lower` (ASCII case folding). -/
def str_lower (s : String) : String := ⟨s.data.map Char.toLower⟩

/-- Model of Python `str.startswith`: prefix match. -/
def pyStartswith (s pre : String) : Bool := pre.data.isPrefixOf s.data

/-- Model of Python `str.endswith`: suffix match. -/
def pyEndswith (s suffix : String) : Bool := suffix.data.isSuffixOf s.data

/-- Python `str.split()` with no argument: split on whitespace runs,
dropping empty pieces. -/
def pySplitWhitespace (s : String) : List String :=
  (s.split Char.isWhitespace).filter (fun p => ¬ p.isEmpty)

/-- Python `f"{n:02d}"`: decimal rendering left-padded with `0` to width 2. -/
def pad2 (n : Int) : String :=
  if 0 ≤ n ∧ n < 10 then "0" ++ toString n else toString n

/-- `pathlib.Path(p).name`: the final non-empty path component. -/
def pathName (p : String) : String :=
  (((p.splitOn "/").filter (fun c => ¬ c.isEmpty)).getLastD "")

/-!
## Data model (`transcription.py`)

A segment metadata dictionary, with every key of the spec data model
present (`segment_id`, `path`, `start_time`, `end_time`, `duration`,
`filename`).
-/

structure Segment where
  segment_id : Int
  path : String
  start_time : ℚ
  end_time : ℚ
  duration : ℚ
  filename : String
deriving DecidableEq, Repr

/-- A transcription result dictionary, as built by
`transcribe_audio_segment` (lines 103-112 and 121-130) and by the stub
branch of `batch_transcribe_segments`. -/
structure TranscriptionResult where
  segment_id : Int
  text : String
  start_time : ℚ
  end_time : ℚ
  duration : ℚ
  filename : String
  success : Bool
  error : Option String
deriving DecidableEq, Repr

/-- The success record returned on a successful attempt
(`transcription.py` lines 103-112). -/
def successRecord (seg : Segment) (text : String) : TranscriptionResult :=
  { segment_id := seg.segment_id
    text := text
    start_time := seg.start_time
    end_time := seg.end_time
    duration := seg.duration
    filename := seg.filename
    success := true
    error := none }

/-- The failure record returned once retries are exhausted
(`transcription.py` lines 121-130): empty text, `success=False`, the last
error message, and the segment's timing metadata. -/
def failureRecord (seg : Segment) (err : String) : TranscriptionResult :=
  { segment_id := seg.segment_id
    text := ""
    start_time := seg.start_time
    end_time := seg.end_time
    duration := seg.duration
    filename := seg.filename
    success := false
    error := some err }

/-!
## `transcribe_audio_segment` (lines 77-132)

One attempt of the `try` body (encode the audio, call the API, extract the
text) is modelled by an oracle `call : Nat → Except String String` giving,
per 0-based attempt index, either the transcription text or the `str(e)`
of the raised exception.  The returned triple is
(result as in the source, list of sleep durations performed, number of
attempts made).
-/

/-- The `for attempt in range(max_retries)` loop, structurally recursive on
the number of remaining iterations.  `attempt` is the current 0-based
index; `attempt < max_retries - 1` holds exactly when at least one more
iteration remains. -/
def transcribeGo (call : Nat → Except String String) (seg : Segment)
    (retry_delay : ℚ) : Nat → Nat → Option TranscriptionResult × List ℚ × Nat
  | _, 0 => (none, [], 0)
  | attempt, remaining + 1 =>
    match call attempt with
    | .ok text => (some (successRecord seg text), [], 1)
    | .error e =>
      match remaining with
      | 0 => (some (failureRecord seg e), [], 1)
      | r + 1 =>
        let rest := transcribeGo call seg retry_delay (attempt + 1) (r + 1)
        (rest.1, retry_delay * ((attempt : ℚ) + 1) :: rest.2.1, rest.2.2 + 1)

/-- `transcribe_audio_segment(client, segment, model, max_retries,
retry_delay)`: run the retry loop from attempt 0; with `max_retries = 0`
the loop body never runs and the function falls through to `return None`. -/
def transcribe_audio_segment (call : Nat → Except String String)
    (seg : Segment) (max_retries : Nat) (retry_delay : ℚ) :
    Option TranscriptionResult × List ℚ × Nat :=
  transcribeGo call seg retry_delay 0 max_retries

/-!
## `batch_transcribe_segments` (lines 135-230)
-/

/-- An entry of the failed-transcriptions list: `failed_transcriptions.
append(result or segment)` (line 222) appends either the failure result
dictionary, or — when `transcribe_audio_segment` returned `None` — the raw
segment dictionary itself (which has no `text`/`success`/`error` keys). -/
inductive FailureEntry where
  | result (r : TranscriptionResult)
  | raw (s : Segment)
deriving DecidableEq, Repr

/-- The observable outcome of one batch call: the two partitions, the
sleeps performed, and the number of attempts made against the inference
endpoint. -/
structure BatchOutput where
  successes : List TranscriptionResult
  failures : List FailureEntry
  sleeps : List ℚ
  attempts : Nat
deriving DecidableEq, Repr

/-- The stubbed transcription built for one segment in demo mode
(lines 169-191), including the Python `or`-fallbacks: an empty `filename`
falls back to the path's basename, and a zero `duration` falls back to
`max(0.0, end_time - start_time)`. -/
def stubResult (seg : Segment) : TranscriptionResult :=
  let filename := if seg.filename.isEmpty then pathName seg.path else seg.filename
  let start_time := seg.start_time
  let end_time := seg.end_time
  let duration := if seg.duration ≠ 0 then seg.duration
                  else max 0 (end_time - start_time)
  { segment_id := seg.segment_id
    text := "[DEMO TRANSCRIPT] Segment " ++ toString (seg.segment_id + 1) ++
      " from file \x27" ++ filename ++ "\x27. This is generated placeholder " ++
      "text to illustrate the final experience without calling the Voxtral API."
    start_time := start_time
    end_time := end_time
    duration := duration
    filename := filename
    success := true
    error := none }

/-- The live-mode loop over segments (lines 211-222); `i` is the position
of the current segment in the original list, and `oracle i` is the attempt
oracle for that segment. -/
def batchGo (oracle : Nat → Nat → Except String String) (max_retries : Nat)
    (retry_delay : ℚ) : Nat → List Segment → BatchOutput
  | _, [] => ⟨[], [], [], 0⟩
  | i, seg :: rest =>
    let r := transcribe_audio_segment (oracle i) seg max_retries retry_delay
    let out := batchGo oracle max_retries retry_delay (i + 1) rest
    match r.1 with
    | some res =>
      if res.success then
        ⟨res :: out.successes, out.failures, r.2.1 ++ out.sleeps, r.2.2 + out.attempts⟩
      else
        ⟨out.successes, .result res :: out.failures, r.2.1 ++ out.sleeps, r.2.2 + out.attempts⟩
    | none => ⟨out.successes, .raw seg :: out.failures, r.2.1 ++ out.sleeps, r.2.2 + out.attempts⟩

/-- `batch_transcribe_segments(api_url, api_key, segments, model,
max_retries, ...)`: with a falsy (empty) `api_key` the stub branch runs —
no client is built and no attempt is made; otherwise each segment is
transcribed in input order and partitioned by `if result and
result['success']`. -/
def batch_transcribe_segments (oracle : Nat → Nat → Except String String)
    (api_key : String) (segments : List Segment) (max_retries : Nat)
    (retry_delay : ℚ) : BatchOutput :=
  if api_key.isEmpty then
    ⟨segments.map stubResult, [], [], 0⟩
  else
    batchGo oracle max_retries retry_delay 0 segments

/-!
## `create_complete_transcript` (lines 233-290)

The optional file write is I/O outside the returned value and is not
modelled; the function returns the assembled document.
-/

/-- The sort key order used by `sorted(transcriptions, key=lambda x:
x['segment_id'])`. -/
def bySegmentId (a b : TranscriptionResult) : Prop :=
  a.segment_id ≤ b.segment_id

instance : DecidableRel bySegmentId := fun a b =>
  inferInstanceAs (Decidable (a.segment_id ≤ b.segment_id))

instance : IsTotal TranscriptionResult bySegmentId :=
  ⟨fun a b => Int.le_total a.segment_id b.segment_id⟩

instance : IsTrans TranscriptionResult bySegmentId :=
  ⟨fun _ _ _ hab hbc => le_trans hab hbc⟩

/-- The strict version of the sort-key order; antisymmetric outright,
which makes sorted lists with pairwise-distinct keys unique up to
permutation. -/
def bySegmentIdStrict (a b : TranscriptionResult) : Prop :=
  a.segment_id < b.segment_id

instance : IsAntisymm TranscriptionResult bySegmentIdStrict :=
  ⟨fun _ _ h h' => absurd (lt_trans h h') (lt_irrefl _)⟩

/-- Python `sorted` with the segment-id key: a stable sort;
`List.insertionSort` is stable for a total preorder. -/
def sortTranscriptions (ts : List TranscriptionResult) : List TranscriptionResult :=
  List.insertionSort bySegmentId ts

/-- The `[MM:SS - MM:SS]` timestamp of one transcription (lines 255-265):
minutes and seconds obtained by `int(t // 60)` and `int(t % 60)`. -/
def timestampOf (t : TranscriptionResult) : String :=
  "[" ++ pad2 (pyInt (pyFloordiv t.start_time 60)) ++ ":" ++
    pad2 (pyInt (pyMod t.start_time 60)) ++ " - " ++
    pad2 (pyInt (pyFloordiv t.end_time 60)) ++ ":" ++
    pad2 (pyInt (pyMod t.end_time 60)) ++ "]"

/-- The `Total duration: M:SS` rendering of line 276 (minutes unpadded). -/
def durationLine (d : ℚ) : String :=
  "Total duration: " ++ toString (pyInt (pyFloordiv d 60)) ++ ":" ++
    pad2 (pyInt (pyMod d 60))

/-- Assembly of the transcript lines from the already sorted list
(lines 251-278). -/
def renderTranscript (sorted : List TranscriptionResult) : String :=
  let header := ["=== EARNINGS CALL TRANSCRIPT ===\n"]
  let body := sorted.flatMap (fun t => ["\n" ++ timestampOf t, t.text.trim])
  let footer := ["\n\n=== END TRANSCRIPT ===",
                 "\nTotal segments: " ++ toString sorted.length]
  let durationFooter :=
    match sorted.getLast? with
    | some t => [durationLine t.end_time]
    | none => []
  String.intercalate "\n" (header ++ body ++ footer ++ durationFooter)

/-- `create_complete_transcript(transcriptions)`: sort by `segment_id`,
then render. -/
def create_complete_transcript (ts : List TranscriptionResult) : String :=
  renderTranscript (sortTranscriptions ts)

/-!
## `create_transcript_metadata` (lines 293-321)
-/

structure TranscriptMetadata where
  source_audio : String
  sample_rate : Int
  total_segments : Nat
  total_duration : ℚ
  total_words : Nat
  avg_segment_duration : ℚ
  segments : List TranscriptionResult
deriving DecidableEq, Repr

/-- `create_transcript_metadata(transcriptions, audio_file, sample_rate)`:
note `total_duration = transcriptions[-1]['end_time']` reads the last
element of the list *as given* — unlike the assembler, this function does
not sort by `segment_id`. -/
def create_transcript_metadata (ts : List TranscriptionResult)
    (audio_file : String) (sample_rate : Int) : TranscriptMetadata :=
  let total_segments := ts.length
  let total_duration : ℚ := match ts.getLast? with
    | some t => t.end_time
    | none => 0
  let total_words := (ts.map (fun t => (pySplitWhitespace t.text).length)).sum
  { source_audio := audio_file
    sample_rate := sample_rate
    total_segments := total_segments
    total_duration := total_duration
    total_words := total_words
    avg_segment_duration :=
      if total_segments > 0 then total_duration / (total_segments : ℚ) else 0
    segments := ts }

/-!
## Resource Resolver/Cache (`app.py` lines 123-177)

The KFP orchestration API is modelled by an oracle: the decoded payloads
the three `_kfp_request` calls would yield, with `.error` standing for a
raised `RuntimeError` (HTTP status >= 400 or transport failure).  An
experiment list item is reduced to its `experiment_id` field
(`items[0].get('experiment_id')` is its only read), hence
`Option String`.  Each resolver returns (outcome, new cache state, number
of outbound KFP calls made).
-/

/-- One entry of the `pipelines` list in the KFP response, reduced to the
four fields the scan loop reads. -/
structure PipelineItem where
  display_name : Option String
  name : Option String
  pipeline_id : Option String
  pipelineVersionId : Option String
deriving DecidableEq, Repr

/-- The KFP API oracle: responses of the three endpoints used by the
resolvers. -/
structure KfpWorld where
  listExperiments : Except String (List (Option String))
  createExperiment : Except String (Option String)
  listPipelines : Except String (List PipelineItem)

/-- The two module-level cache slots `_cached_experiment_id` and
`_cached_pipeline_id`.  A slot holds `none` for Python `None` and
`some s` for a string `s` (possibly empty, hence possibly falsy). -/
structure ResolverState where
  cached_experiment_id : Option String
  cached_pipeline_id : Option String
deriving DecidableEq, Repr

/-- The initial module state: both slots `None`. -/
def initialResolverState : ResolverState := ⟨none, none⟩

/-- Python truthiness of a `None`-or-string value. -/
def truthy : Option String → Bool
  | some s => !s.isEmpty
  | none => false

/-- Python `a or b` on `None`-or-string values. -/
def pyOr (a b : Option String) : Option String :=
  if truthy a then a else b

/-- `_get_or_create_experiment_id()` (lines 123-154). -/
def getOrCreateExperimentId (w : KfpWorld) (st : ResolverState) :
    Except String (Option String) × ResolverState × Nat :=
  if truthy st.cached_experiment_id then
    (.ok st.cached_experiment_id, st, 0)
  else
    match w.listExperiments with
    | .error e => (.error e, st, 1)
    | .ok items =>
      match items with
      | first :: _ =>
        (.ok first, { st with cached_experiment_id := first }, 1)
      | [] =>
        match w.createExperiment with
        | .error e => (.error e, st, 2)
        | .ok experiment_id =>
          if truthy experiment_id then
            (.ok experiment_id, { st with cached_experiment_id := experiment_id }, 2)
          else
            (.error "Failed to create or retrieve experiment ID from KFP", st, 2)

/-- The scan of the pipelines list (lines 168-175): a pipeline matches
when `pipeline.get(\x27display_name\x27) or pipeline.get(\x27name\x27)`
equals the configured name; a match with a falsy id does not return —
the loop moves on. -/
def scanPipelines (pname : String) : List PipelineItem → Option String
  | [] => none
  | p :: rest =>
    if pyOr p.display_name p.name = some pname then
      match pyOr p.pipeline_id p.pipelineVersionId with
      | some pid => if pid.isEmpty then scanPipelines pname rest else some pid
      | none => scanPipelines pname rest
    else scanPipelines pname rest

/-- `_get_pipeline_id()` (lines 157-177), parameterized by the configured
`PIPELINE_NAME` and `KFP_NAMESPACE`. -/
def getPipelineId (pname ns : String) (w : KfpWorld) (st : ResolverState) :
    Except String String × ResolverState × Nat :=
  if truthy st.cached_pipeline_id then
    (.ok (st.cached_pipeline_id.getD ""), st, 0)
  else
    match w.listPipelines with
    | .error e => (.error e, st, 1)
    | .ok items =>
      match scanPipelines pname items with
      | some pid => (.ok pid, { st with cached_pipeline_id := some pid }, 1)
      | none =>
        (.error ("Pipeline \x27" ++ pname ++ "\x27 not found in namespace \x27" ++
          ns ++ "\x27"), st, 1)

/-!
## Event acceptance (`handle_event`, `app.py` lines 299-324)

The CloudEvent envelope parsing and the percent-decoding of the raw key
(`urllib.parse.unquote`, an external library) sit upstream; the decision
chain below takes the bucket name and the already percent-decoded object
key and either ignores the event with a reason or proceeds to
`trigger_pipeline`.
-/

inductive HandlerOutcome where
  | ignored (reason : String)
  | triggerPipeline (bucket : String) (objectKey : String)
deriving DecidableEq, Repr

/-- The configured allow-list of audio extensions (line 316). -/
def audio_extensions : List String := [".mp3", ".wav", ".m4a", ".flac", ".ogg"]

/-- The acceptance chain of `handle_event` after extraction and
percent-decoding: missing fields, foreign bucket, the `transcripts/`
output-artifact prefix (case-insensitive), and the audio-extension
allow-list, in that order. -/
def handle_event_decision (bucket key : String) : HandlerOutcome :=
  if bucket.isEmpty || key.isEmpty then
    .ignored "invalid event structure"
  else if bucket ≠ "audio-inbox" then
    .ignored ("bucket " ++ bucket ++ " not monitored")
  else if pyStartswith (str_lower key) "transcripts/" then
    .ignored "transcript artifacts are not ingested"
  else if !(audio_extensions.any (fun ext => pyEndswith (str_lower key) ext)) then
    .ignored "not an audio file"
  else
    .triggerPipeline bucket key

/-!
## Concrete sample inputs used by witnesses and counterexamples
-/

/-- A three-segment batch with ids 1, 2, 3 (10-second segments). -/
def seg1 : Segment := ⟨1, "a/p1.wav", 0, 10, 10, "p1.wav"⟩

def seg2 : Segment := ⟨2, "a/p2.wav", 10, 20, 10, "p2.wav"⟩

def seg3 : Segment := ⟨3, "a/p3.wav", 20, 30, 10, "p3.wav"⟩

/-- An inference oracle under which the second segment (position 1) fails
every attempt and the others succeed on the first attempt. -/
def demoOracle : Nat → Nat → Except String String :=
  fun i _ => if i = 1 then .error "boom" else .ok "txt"

/-- A per-attempt oracle that always fails, with a distinct message per
attempt index. -/
def alwaysFail : Nat → Except String String :=
  fun i => .error ("err" ++ toString i)

def errOf : Nat → String := fun i => "err" ++ toString i

/-- Two transcription results with distinct ids and distinct end times. -/
def resA : TranscriptionResult := ⟨1, "alpha beta", 0, 60, 60, "p1.wav", true, none⟩

def resB : TranscriptionResult := ⟨2, "gamma", 60, 120, 60, "p2.wav", true, none⟩

/-- A KFP world where the experiment exists and the pipeline is listed. -/
def wGood : KfpWorld :=
  { listExperiments := .ok [some "exp-1"]
    createExperiment := .ok none
    listPipelines := .ok [⟨some "audio-transcription-pipeline", none, some "pip-1", none⟩] }

/-- A KFP world where every call raises: a second resolution that makes no
outbound call is insensitive to it. -/
def wDown : KfpWorld :=
  { listExperiments := .error "api down"
    createExperiment := .error "api down"
    listPipelines := .error "api down" }

/-- A KFP world whose experiment list is non-empty but whose first entry
has no `experiment_id` field. -/
def wNoId : KfpWorld :=
  { listExperiments := .ok [none]
    createExperiment := .ok (some "exp-9")
    listPipelines := .ok [] }

/-!
## Theorems
-/

/-- Each iteration of the live-mode batch loop appends exactly one entry to
one of the two partitions. -/
theorem batchGo_length (oracle : Nat → Nat → Except String String)
    (mr : Nat) (d : ℚ) (i : Nat) (segs : List Segment) :
    (batchGo oracle mr d i segs).successes.length +
      (batchGo oracle mr d i segs).failures.length = segs.length := by
  induction segs generalizing i with
  | nil => rfl
  | cons s rest ih =>
    simp only [batchGo]
    cases h : (transcribe_audio_segment (oracle i) s mr d).1 with
    | none =>
      simp only [List.length_cons]
      rw [Nat.add_succ]
      exact congrArg Nat.succ (ih (i + 1))
    | some res =>
      by_cases hs : res.success <;>
        simp only [hs, if_true, if_false, List.length_cons, Bool.false_eq_true,
          ite_true, ite_false] <;>
      first
        | (rw [Nat.succ_add]; exact congrArg Nat.succ (ih (i + 1)))
        | (rw [Nat.add_succ]; exact congrArg Nat.succ (ih (i + 1)))

/-- C1: for every batch of N input segments, in live or stub mode, the
number of successes plus the number of failures equals N: every input
segment lands in exactly one of the two returned partitions. -/
theorem batch_partition_total (oracle : Nat → Nat → Except String String)
    (api_key : String) (segments : List Segment) (mr : Nat) (d : ℚ) :
    (batch_transcribe_segments oracle api_key segments mr d).successes.length +
      (batch_transcribe_segments oracle api_key segments mr d).failures.length =
      segments.length := by
  unfold batch_transcribe_segments
  by_cases h : api_key.isEmpty <;> simp only [h, if_true, if_false, ite_true, ite_false]
  · simp
  · exact batchGo_length oracle mr d 0 segments

/-- C5: with no credential configured (empty API key) the batch operation
runs the stub branch: it is independent of the inference oracle, makes no
attempt against the endpoint (hence no network call), sleeps never,
returns one success per input segment and an empty failure list, and each
success carries the deterministic placeholder text built from the
segment's id converted to a 1-based index and its filename. -/
theorem stub_mode_deterministic (oracle oracle₂ : Nat → Nat → Except String String)
    (segments : List Segment) (mr mr₂ : Nat) (d d₂ : ℚ) :
    batch_transcribe_segments oracle "" segments mr d =
      ⟨segments.map stubResult, [], [], 0⟩ ∧
    batch_transcribe_segments oracle "" segments mr d =
      batch_transcribe_segments oracle₂ "" segments mr₂ d₂ ∧
    (batch_transcribe_segments oracle "" segments mr d).successes.length =
      segments.length ∧
    (batch_transcribe_segments oracle "" segments mr d).failures = [] ∧
    (batch_transcribe_segments oracle "" segments mr d).attempts = 0 ∧
    (batch_transcribe_segments oracle "" segments mr d).successes.map
        (fun r => r.text) =
      segments.map (fun seg =>
        "[DEMO TRANSCRIPT] Segment " ++ toString (seg.segment_id + 1) ++
          " from file \x27" ++
          (if seg.filename.isEmpty then pathName seg.path else seg.filename) ++
          "\x27. This is generated placeholder " ++
          "text to illustrate the final experience without calling the Voxtral API.") := by
  have h0 : batch_transcribe_segments oracle "" segments mr d =
      ⟨segments.map stubResult, [], [], 0⟩ := rfl
  refine ⟨h0, rfl, ?_, by rw [h0], by rw [h0], ?_⟩
  · rw [h0]; simp
  · rw [h0]
    simp only [List.map_map]
    rfl

/-- With zero retries the per-segment loop body never runs: no attempt, no
sleep, and the fall-through `return None`. -/
theorem transcribe_zero_retries (call : Nat → Except String String)
    (seg : Segment) (d : ℚ) :
    transcribe_audio_segment call seg 0 d = (none, [], 0) := rfl

/-- C9: in live mode with `max_retries = 0` every segment yields `None`
without any attempt, and the batch places the raw segment record (the
`FailureEntry.raw` arm, which carries no text/success/error fields) into
the failures partition; successes are empty and the partition sizes still
sum to N. -/
theorem zero_retries_raw_segments (oracle : Nat → Nat → Except String String)
    (key : String) (segments : List Segment) (d : ℚ) (hkey : key ≠ "") :
    batch_transcribe_segments oracle key segments 0 d =
      ⟨[], segments.map FailureEntry.raw, [], 0⟩ ∧
    (∀ seg : Segment, transcribe_audio_segment (oracle 0) seg 0 d = (none, [], 0)) ∧
    (batch_transcribe_segments oracle key segments 0 d).successes.length +
      (batch_transcribe_segments oracle key segments 0 d).failures.length =
      segments.length := by
  have hempty : key.isEmpty = false := by
    cases hk : key.isEmpty
    · rfl
    · exact absurd ((String.isEmpty_iff key).mp hk) hkey
  have hgo : ∀ i (segs : List Segment),
      batchGo oracle 0 d i segs = ⟨[], segs.map FailureEntry.raw, [], 0⟩ := by
    intro i segs
    induction segs generalizing i with
    | nil => rfl
    | cons s rest ih =>
      simp only [batchGo, transcribe_audio_segment, transcribeGo, List.map_cons,
        ih (i + 1), List.nil_append, Nat.add_zero]
  have h1 : batch_transcribe_segments oracle key segments 0 d =
      ⟨[], segments.map FailureEntry.raw, [], 0⟩ := by
    unfold batch_transcribe_segments
    rw [hempty]
    simp only [Bool.false_eq_true, if_false, ite_false]
    exact hgo 0 segments
  refine ⟨h1, fun seg => rfl, ?_⟩
  rw [h1]
  simp

/-- C9 witness: a two-segment live batch with `max_retries = 0`. -/
theorem zero_retries_raw_segments_witness :
    ("k" : String) ≠ "" ∧
    (batch_transcribe_segments demoOracle "k" [seg1, seg2] 0 1 =
      ⟨[], [seg1, seg2].map FailureEntry.raw, [], 0⟩ ∧
     (∀ seg : Segment, transcribe_audio_segment (demoOracle 0) seg 0 1 = (none, [], 0)) ∧
     (batch_transcribe_segments demoOracle "k" [seg1, seg2] 0 1).successes.length +
       (batch_transcribe_segments demoOracle "k" [seg1, seg2] 0 1).failures.length =
       ([seg1, seg2] : List Segment).length) :=
  ⟨by decide, zero_retries_raw_segments demoOracle "k" [seg1, seg2] 1 (by decide)⟩

/-- The retry loop under an all-failing oracle, from an arbitrary attempt
index: the result is the failure record for the last error, the sleeps are
`d * (attemptIndex + 1)` for every non-final failed attempt, and the
number of attempts equals the number of remaining iterations. -/
theorem transcribeGo_all_fail (call : Nat → Except String String)
    (errs : Nat → String) (seg : Segment) (d : ℚ) :
    ∀ rem attempt, (∀ j, j ≤ rem → call (attempt + j) = .error (errs (attempt + j))) →
    transcribeGo call seg d attempt (rem + 1) =
      (some (failureRecord seg (errs (attempt + rem))),
       (List.range rem).map (fun j => d * ((attempt + j : Nat) + 1 : ℚ)),
       rem + 1) := by
  intro rem
  induction rem with
  | zero =>
    intro attempt h
    have h0 := h 0 (Nat.le_refl 0)
    simp only [Nat.add_zero] at h0
    simp only [transcribeGo, h0, Nat.add_zero, List.range_zero, List.map_nil]
  | succ r ih =>
    intro attempt h
    have h0 := h 0 (Nat.zero_le _)
    simp only [Nat.add_zero] at h0
    have hrec := ih (attempt + 1) (fun j hj => by
      have := h (j + 1) (Nat.succ_le_succ hj)
      simpa [Nat.add_assoc, Nat.add_comm 1 j] using this)
    simp only [transcribeGo, h0, hrec]
    refine congrArg₂ Prod.mk ?_ (congrArg₂ Prod.mk ?_ rfl)
    · have : attempt + 1 + r = attempt + (r + 1) := by omega
      rw [this]
    · rw [List.range_succ_eq_map, List.map_cons, List.map_map]
      refine congrArg₂ List.cons (by push_cast; ring) ?_
      refine List.map_congr_left ?_
      intro j _
      simp only [Function.comp_apply]
      push_cast
      ring

/-- The retry loop when the first `k` attempts fail and attempt `k`
succeeds: one sleep of `d * (attemptIndex + 1)` per failed attempt, then
the success record; `k + 1` attempts in total. -/
theorem transcribeGo_fail_then_ok (call : Nat → Except String String)
    (errs : Nat → String) (seg : Segment) (d : ℚ) (t : String) :
    ∀ k attempt rem, k < rem →
    (∀ j, j < k → call (attempt + j) = .error (errs (attempt + j))) →
    call (attempt + k) = .ok t →
    transcribeGo call seg d attempt rem =
      (some (successRecord seg t),
       (List.range k).map (fun j => d * ((attempt + j : Nat) + 1 : ℚ)),
       k + 1) := by
  intro k
  induction k with
  | zero =>
    intro attempt rem hlt _ hok
    obtain ⟨r, rfl⟩ : ∃ r, rem = r + 1 := ⟨rem - 1, by omega⟩
    simp only [Nat.add_zero] at hok
    simp only [transcribeGo, hok, List.range_zero, List.map_nil]
  | succ k ih =>
    intro attempt rem hlt hfail hok
    obtain ⟨r, rfl⟩ : ∃ r, rem = r + 1 := ⟨rem - 1, by omega⟩
    have h0 := hfail 0 (Nat.zero_le _ |>.trans_lt (Nat.succ_pos k))
    simp only [Nat.add_zero] at h0
    obtain ⟨r', rfl⟩ : ∃ r', r = r' + 1 := ⟨r - 1, by omega⟩
    have hrec := ih (attempt + 1) (r' + 1) (by omega)
      (fun j hj => by
        have := hfail (j + 1) (by omega)
        simpa [Nat.add_assoc, Nat.add_comm 1 j] using this)
      (by
        have : attempt + 1 + k = attempt + (k + 1) := by omega
        rw [this]
        exact hok)
    simp only [transcribeGo, h0, hrec]
    refine congrArg₂ Prod.mk rfl (congrArg₂ Prod.mk ?_ rfl)
    rw [List.range_succ_eq_map, List.map_cons, List.map_map]
    refine congrArg₂ List.cons (by push_cast; ring) ?_
    refine List.map_congr_left ?_
    intro j _
    simp only [Function.comp_apply]
    push_cast
    ring

/-- C3: in live mode with `maxRetries >= 1`, if every attempt fails then
the sleep after the failed attempt with 0-based index `i` is
`retry_delay * (i + 1)` (and there is no sleep after the final attempt),
the returned value is the failure record carrying the last error's
message, `success = false` and the segment's timing metadata, and exactly
`maxRetries` attempts are made — the segment is never attempted again. -/
theorem live_retry_backoff (call : Nat → Except String String)
    (errs : Nat → String) (seg : Segment) (mr : Nat) (d : ℚ)
    (hmr : 1 ≤ mr) (hfail : ∀ i, i < mr → call i = .error (errs i)) :
    transcribe_audio_segment call seg mr d =
      (some (failureRecord seg (errs (mr - 1))),
       (List.range (mr - 1)).map (fun i => d * ((i : Nat) + 1 : ℚ)),
       mr) ∧
    (failureRecord seg (errs (mr - 1))).success = false ∧
    (failureRecord seg (errs (mr - 1))).error = some (errs (mr - 1)) ∧
    (failureRecord seg (errs (mr - 1))).start_time = seg.start_time ∧
    (failureRecord seg (errs (mr - 1))).end_time = seg.end_time ∧
    (failureRecord seg (errs (mr - 1))).duration = seg.duration ∧
    (∀ (call₂ : Nat → Except String String) (errs₂ : Nat → String)
       (t : String) (k : Nat),
      k < mr → (∀ j, j < k → call₂ j = .error (errs₂ j)) → call₂ k = .ok t →
      transcribe_audio_segment call₂ seg mr d =
        (some (successRecord seg t),
         (List.range k).map (fun i => d * ((i : Nat) + 1 : ℚ)),
         k + 1)) := by
  obtain ⟨rem, rfl⟩ : ∃ rem, mr = rem + 1 := ⟨mr - 1, by omega⟩
  have hmain := transcribeGo_all_fail call errs seg d rem 0
    (fun j hj => by simpa using hfail j (by omega))
  refine ⟨?_, rfl, rfl, rfl, rfl, rfl, ?_⟩
  · unfold transcribe_audio_segment
    rw [hmain]
    simp only [Nat.zero_add, Nat.add_sub_cancel]
  · intro call₂ errs₂ t k hk hf hok
    have hrun := transcribeGo_fail_then_ok call₂ errs₂ seg d t k 0 (rem + 1) hk
      (fun j hj => by simpa using hf j hj) (by simpa using hok)
    simp only [Nat.zero_add] at hrun
    unfold transcribe_audio_segment
    exact hrun

/-- C3 witness: three failing attempts with `retry_delay = 2` produce the
failure record for the last error, sleeps `[2*1, 2*2]`, and exactly 3
attempts. -/
theorem live_retry_backoff_witness :
    (1 ≤ 3 ∧ ∀ i, i < 3 → alwaysFail i = .error (errOf i)) ∧
    (transcribe_audio_segment alwaysFail seg1 3 2 =
      (some (failureRecord seg1 (errOf (3 - 1))),
       (List.range (3 - 1)).map (fun i => (2 : ℚ) * ((i : Nat) + 1 : ℚ)),
       3) ∧
     (failureRecord seg1 (errOf (3 - 1))).success = false ∧
     (failureRecord seg1 (errOf (3 - 1))).error = some (errOf (3 - 1)) ∧
     (failureRecord seg1 (errOf (3 - 1))).start_time = seg1.start_time ∧
     (failureRecord seg1 (errOf (3 - 1))).end_time = seg1.end_time ∧
     (failureRecord seg1 (errOf (3 - 1))).duration = seg1.duration ∧
     (∀ (call₂ : Nat → Except String String) (errs₂ : Nat → String)
        (t : String) (k : Nat),
       k < 3 → (∀ j, j < k → call₂ j = .error (errs₂ j)) → call₂ k = .ok t →
       transcribe_audio_segment call₂ seg1 3 2 =
         (some (successRecord seg1 t),
          (List.range k).map (fun i => (2 : ℚ) * ((i : Nat) + 1 : ℚ)),
          k + 1))) :=
  ⟨⟨by decide, fun i _ => rfl⟩,
   live_retry_backoff alwaysFail errOf seg1 3 2 (by decide) (fun i _ => rfl)⟩

/-- C4 counterexample: in the claimed scenario (maxRetries = 2, segment 2
failing every attempt, segments 1 and 3 succeeding at once) with
`baseDelay = 1`, the only sleep is the one between segment 2's two
attempts, so the total slept time is `1`, not
`baseDelay*(1) + baseDelay*(2) = 3`: no sleep follows the final failed
attempt. -/
theorem batch_scenario_sleep_counterexample :
    (batch_transcribe_segments demoOracle "key" [seg1, seg2, seg3] 2 1).sleeps.sum ≠
      1 * (0 + 1) + 1 * (1 + 1) := by
  have h : (batch_transcribe_segments demoOracle "key" [seg1, seg2, seg3] 2 1).sleeps =
      [1 * (((0 : Nat) : ℚ) + 1)] := rfl
  rw [h]
  simp only [List.sum_cons, List.sum_nil]
  norm_num

/-- C4 (amended): in live mode with `maxRetries = 2`, three segments of
ids 1, 2, 3 where the second fails every attempt and the others succeed
on their first attempt, the successes are exactly the results for ids 1
and 3, the failures hold exactly one entry for id 2 carrying the last
error's (non-empty) message, and the total slept time equals
`baseDelay * 1` only — the sleep between segment 2's two attempts. -/
theorem batch_scenario_amended (oracle : Nat → Nat → Except String String)
    (s1 s2 s3 : Segment) (key t1 t3 e0 e1 : String) (d : ℚ)
    (hkey : key ≠ "")
    (h00 : oracle 0 0 = .ok t1) (h10 : oracle 1 0 = .error e0)
    (h11 : oracle 1 1 = .error e1) (h20 : oracle 2 0 = .ok t3)
    (hid1 : s1.segment_id = 1) (hid2 : s2.segment_id = 2)
    (hid3 : s3.segment_id = 3) (he1 : e1 ≠ "") :
    batch_transcribe_segments oracle key [s1, s2, s3] 2 d =
      ⟨[successRecord s1 t1, successRecord s3 t3],
       [FailureEntry.result (failureRecord s2 e1)],
       [d * 1], 4⟩ ∧
    (successRecord s1 t1).segment_id = 1 ∧
    (successRecord s3 t3).segment_id = 3 ∧
    (failureRecord s2 e1).segment_id = 2 ∧
    (failureRecord s2 e1).error = some e1 ∧
    some e1 ≠ some "" ∧
    [d * 1].sum = d * 1 := by
  have hempty : key.isEmpty = false := by
    cases hk : key.isEmpty
    · rfl
    · exact absurd ((String.isEmpty_iff key).mp hk) hkey
  refine ⟨?_, hid1, hid3, hid2, rfl, by simpa using he1, by simp⟩
  unfold batch_transcribe_segments
  rw [hempty]
  simp only [Bool.false_eq_true, if_false, ite_false]
  simp only [batchGo, transcribe_audio_segment, transcribeGo, h00, h10, h11, h20,
    successRecord, failureRecord]
  norm_num

/-- C4 witness: the amended scenario at `baseDelay = 2` with concrete
segments and oracle. -/
theorem batch_scenario_amended_witness :
    batch_transcribe_segments demoOracle "key" [seg1, seg2, seg3] 2 2 =
      ⟨[successRecord seg1 "txt", successRecord seg3 "txt"],
       [FailureEntry.result (failureRecord seg2 "boom")],
       [2 * 1], 4⟩ ∧
    (successRecord seg1 "txt").segment_id = 1 ∧
    (successRecord seg3 "txt").segment_id = 3 ∧
    (failureRecord seg2 "boom").segment_id = 2 ∧
    (failureRecord seg2 "boom").error = some "boom" ∧
    some "boom" ≠ some "" ∧
    [(2 : ℚ) * 1].sum = 2 * 1 :=
  batch_scenario_amended demoOracle seg1 seg2 seg3 "key" "txt" "txt" "boom" "boom" 2
    (by decide) rfl rfl rfl rfl (by decide) (by decide) (by decide) (by decide)

/-- C7: every notification from the configured inbox bucket whose
percent-decoded object key starts, case-insensitively, with the
output-artifact prefix `transcripts/` is ignored with the reason naming
transcript artifacts — regardless of the key's extension — and
`trigger_pipeline` is never reached. -/
theorem transcripts_prefix_ignored (bucket key : String)
    (hb : bucket = "audio-inbox")
    (hk : pyStartswith (str_lower key) "transcripts/" = true) :
    handle_event_decision bucket key = .ignored "transcript artifacts are not ingested" ∧
    (∀ b k, handle_event_decision bucket key ≠ .triggerPipeline b k) := by
  subst hb
  have hkey : key.isEmpty = false := by
    cases h : key.isEmpty
    · rfl
    · rw [(String.isEmpty_iff key).mp h] at hk
      exact absurd hk (by decide)
  have h1 : handle_event_decision "audio-inbox" key =
      .ignored "transcript artifacts are not ingested" := by
    unfold handle_event_decision
    have hbucket : "audio-inbox".isEmpty = false := rfl
    rw [hbucket, hkey]
    simp only [Bool.or_self, Bool.false_eq_true, if_false, ite_false, hk,
      if_true, ite_true, ne_eq, not_true_eq_false, if_neg]
  exact ⟨h1, fun b k => by rw [h1]; intro h; cases h⟩

/-- C7 witness: a transcript artifact with a non-audio extension, uploaded
to the inbox bucket. -/
theorem transcripts_prefix_ignored_witness :
    handle_event_decision "audio-inbox" "transcripts/call.txt" =
      .ignored "transcript artifacts are not ingested" ∧
    (∀ b k, handle_event_decision "audio-inbox" "transcripts/call.txt" ≠
      .triggerPipeline b k) :=
  transcripts_prefix_ignored "audio-inbox" "transcripts/call.txt" rfl (by decide)

/-- A list sorted by the non-strict key order whose keys are pairwise
distinct is sorted by the strict key order. -/
theorem sorted_strict_of_sorted_nodup (l : List TranscriptionResult)
    (hs : List.Sorted bySegmentId l)
    (hd : (l.map (fun t => t.segment_id)).Nodup) :
    List.Sorted bySegmentIdStrict l := by
  have hne : l.Pairwise (fun a b : TranscriptionResult =>
      a.segment_id ≠ b.segment_id) := List.pairwise_map.mp hd
  exact List.Pairwise.imp₂ (fun a b hle hab => lt_of_le_of_ne hle hab) hs hne

/-- Sorting by segment id is invariant under permutation of the input when
the segment ids are pairwise distinct. -/
theorem sortTranscriptions_perm_eq (l₁ l₂ : List TranscriptionResult)
    (hp : l₁.Perm l₂)
    (hd : (l₁.map (fun t => t.segment_id)).Nodup) :
    sortTranscriptions l₁ = sortTranscriptions l₂ := by
  have hp₁ : (sortTranscriptions l₁).Perm l₁ := List.perm_insertionSort _ _
  have hp₂ : (sortTranscriptions l₂).Perm l₂ := List.perm_insertionSort _ _
  have hd₂ : (l₂.map (fun t => t.segment_id)).Nodup :=
    (hp.map (fun t => t.segment_id)).nodup_iff.mp hd
  have hd₁s : ((sortTranscriptions l₁).map (fun t => t.segment_id)).Nodup :=
    (hp₁.map (fun t => t.segment_id)).nodup_iff.mpr hd
  have hd₂s : ((sortTranscriptions l₂).map (fun t => t.segment_id)).Nodup :=
    (hp₂.map (fun t => t.segment_id)).nodup_iff.mpr hd₂
  have hs₁ : List.Sorted bySegmentIdStrict (sortTranscriptions l₁) :=
    sorted_strict_of_sorted_nodup _ (List.sorted_insertionSort bySegmentId l₁) hd₁s
  have hs₂ : List.Sorted bySegmentIdStrict (sortTranscriptions l₂) :=
    sorted_strict_of_sorted_nodup _ (List.sorted_insertionSort bySegmentId l₂) hd₂s
  exact List.eq_of_perm_of_sorted (hp₁.trans (hp.trans hp₂.symm)) hs₁ hs₂

/-- C6: transcript assembly is order-independent and deterministic: for
every two permutations of the same transcription results with pairwise
distinct segment ids, the assembled documents are identical (assembly
sorts by segment id ascending before rendering). -/
theorem assembly_order_independent (l₁ l₂ : List TranscriptionResult)
    (hp : l₁.Perm l₂)
    (hd : (l₁.map (fun t => t.segment_id)).Nodup) :
    create_complete_transcript l₁ = create_complete_transcript l₂ := by
  unfold create_complete_transcript
  rw [sortTranscriptions_perm_eq l₁ l₂ hp hd]

/-- C6 witness: the two orders of a two-result batch assemble to the same
document. -/
theorem assembly_order_independent_witness :
    ([resB, resA] : List TranscriptionResult).Perm [resA, resB] ∧
    (([resB, resA] : List TranscriptionResult).map (fun t => t.segment_id)).Nodup ∧
    create_complete_transcript [resB, resA] = create_complete_transcript [resA, resB] :=
  ⟨List.Perm.swap resA resB [], by decide,
   assembly_order_independent [resB, resA] [resA, resB]
     (List.Perm.swap resA resB []) (by decide)⟩

/-- C8: the metadata record's `total_duration` is the end time of the last
element of the input list in the order given (the metadata builder does
not sort by segment id), so two permutations of the same results can
disagree on `total_duration` and `avg_segment_duration` even though they
assemble to the identical transcript document. -/
theorem metadata_uses_last_in_input_order (ts : List TranscriptionResult)
    (audio : String) (sr : Int) (h : ts ≠ []) :
    (create_transcript_metadata ts audio sr).total_duration = (ts.getLast h).end_time ∧
    ([resA, resB] : List TranscriptionResult).Perm [resB, resA] ∧
    (create_transcript_metadata [resA, resB] "call.mp3" 16000).total_duration ≠
      (create_transcript_metadata [resB, resA] "call.mp3" 16000).total_duration ∧
    (create_transcript_metadata [resA, resB] "call.mp3" 16000).avg_segment_duration ≠
      (create_transcript_metadata [resB, resA] "call.mp3" 16000).avg_segment_duration ∧
    create_complete_transcript [resA, resB] = create_complete_transcript [resB, resA] := by
  refine ⟨?_, List.Perm.swap resB resA [], ?_, ?_, rfl⟩
  · unfold create_transcript_metadata
    rw [List.getLast?_eq_getLast_of_ne_nil h]
  · simp [create_transcript_metadata, resA, resB]
  · simp [create_transcript_metadata, resA, resB]
    norm_num

/-- C8 witness: the positional part applied to a singleton list. -/
theorem metadata_uses_last_in_input_order_witness :
    ([resA] : List TranscriptionResult) ≠ [] ∧
    (create_transcript_metadata [resA] "call.mp3" 16000).total_duration =
      (([resA] : List TranscriptionResult).getLast (by decide)).end_time :=
  ⟨by decide,
   (metadata_uses_last_in_input_order [resA] "call.mp3" 16000 (by decide)).1⟩

/-- The pipeline scan only returns truthy (non-empty) ids: a matching
entry with a falsy id is skipped by the loop. -/
theorem scanPipelines_truthy (pname : String) (items : List PipelineItem)
    (pid : String) (h : scanPipelines pname items = some pid) :
    pid.isEmpty = false := by
  induction items with
  | nil => cases h
  | cons p rest ih =>
    unfold scanPipelines at h
    split at h
    · split at h
      · rename_i pid' _
        split at h
        · exact ih h
        · rename_i hne
          injection h with h'
          subst h'
          simpa using hne
      · exact ih h
    · exact ih h

/-- A populated, truthy experiment cache slot short-circuits resolution:
no outbound call, the cached id is returned, the state is unchanged. -/
theorem getOrCreateExperimentId_cached (w : KfpWorld) (st : ResolverState)
    (eid : String) (hslot : st.cached_experiment_id = some eid) (hne : eid ≠ "") :
    getOrCreateExperimentId w st = (.ok (some eid), st, 0) := by
  have hempty : eid.isEmpty = false := by
    cases hk : eid.isEmpty
    · rfl
    · exact absurd ((String.isEmpty_iff eid).mp hk) hne
  unfold getOrCreateExperimentId
  rw [hslot]
  simp [truthy, hempty]

/-- A populated, truthy pipeline cache slot short-circuits resolution. -/
theorem getPipelineId_cached (pname ns : String) (w : KfpWorld)
    (st : ResolverState) (pid : String)
    (hslot : st.cached_pipeline_id = some pid) (hempty : pid.isEmpty = false) :
    getPipelineId pname ns w st = (.ok pid, st, 0) := by
  unfold getPipelineId
  rw [hslot]
  simp [truthy, hempty]

/-- C2: if a first experiment resolution returns a truthy id and a first
pipeline resolution returns an id, then each has populated its private
cache slot with exactly that id, and a later resolution — against any
state of the orchestration API, even one where every call fails — makes
zero outbound calls and returns the identical cached id. -/
theorem resolver_cache_idempotent (w w' : KfpWorld) (st : ResolverState)
    (pname ns eid pid : String) (est pst : ResolverState) (en pn : Nat)
    (he : getOrCreateExperimentId w st = (.ok (some eid), est, en))
    (heid : eid ≠ "")
    (hp : getPipelineId pname ns w st = (.ok pid, pst, pn)) :
    est.cached_experiment_id = some eid ∧
    getOrCreateExperimentId w' est = (.ok (some eid), est, 0) ∧
    pst.cached_pipeline_id = some pid ∧
    getPipelineId pname ns w' pst = (.ok pid, pst, 0) := by
  have hestSlot : est.cached_experiment_id = some eid := by
    unfold getOrCreateExperimentId at he
    split at he
    · simp only [Prod.mk.injEq, Except.ok.injEq] at he
      obtain ⟨h1, h2, -⟩ := he
      rw [← h2]
      exact h1
    · split at he
      · simp at he
      · split at he
        · simp only [Prod.mk.injEq, Except.ok.injEq] at he
          obtain ⟨h1, h2, -⟩ := he
          rw [← h2]
          simp [h1]
        · split at he
          · simp at he
          · split at he
            · simp only [Prod.mk.injEq, Except.ok.injEq] at he
              obtain ⟨h1, h2, -⟩ := he
              rw [← h2]
              simp [h1]
            · simp at he
  have hpipe : pst.cached_pipeline_id = some pid ∧ pid.isEmpty = false := by
    unfold getPipelineId at hp
    split at hp
    · rename_i htr
      cases hslot : st.cached_pipeline_id with
      | none => rw [hslot] at htr; simp [truthy] at htr
      | some s =>
        rw [hslot] at htr hp
        simp only [truthy, Bool.not_eq_true'] at htr
        simp only [Option.getD_some, Prod.mk.injEq, Except.ok.injEq] at hp
        obtain ⟨h1, h2, -⟩ := hp
        subst h1
        rw [← h2]
        exact ⟨hslot, htr⟩
    · split at hp
      · simp at hp
      · split at hp
        · rename_i p hscan
          simp only [Prod.mk.injEq, Except.ok.injEq] at hp
          obtain ⟨h1, h2, -⟩ := hp
          subst h1
          rw [← h2]
          exact ⟨rfl, scanPipelines_truthy pname _ p hscan⟩
        · simp at hp
  refine ⟨hestSlot, getOrCreateExperimentId_cached w' est eid hestSlot heid,
    hpipe.1, getPipelineId_cached pname ns w' pst pid hpipe.1 hpipe.2⟩

/-- C2 witness: resolve both ids against a healthy API from the initial
state, then resolve again against a fully failing API: zero calls, same
ids. -/
theorem resolver_cache_idempotent_witness :
    getOrCreateExperimentId wGood initialResolverState =
      (.ok (some "exp-1"), ⟨some "exp-1", none⟩, 1) ∧
    (⟨some "exp-1", none⟩ : ResolverState).cached_experiment_id = some "exp-1" ∧
    getOrCreateExperimentId wDown ⟨some "exp-1", none⟩ =
      (.ok (some "exp-1"), ⟨some "exp-1", none⟩, 0) ∧
    (⟨none, some "pip-1"⟩ : ResolverState).cached_pipeline_id = some "pip-1" ∧
    getPipelineId "audio-transcription-pipeline" "finsight-agent" wDown
        ⟨none, some "pip-1"⟩ =
      (.ok "pip-1", ⟨none, some "pip-1"⟩, 0) := by
  have h := resolver_cache_idempotent wGood wDown initialResolverState
    "audio-transcription-pipeline" "finsight-agent" "exp-1" "pip-1"
    ⟨some "exp-1", none⟩ ⟨none, some "pip-1"⟩ 1 1 rfl (by decide) rfl
  exact ⟨rfl, h.1, h.2.1, h.2.2.1, h.2.2.2⟩

/-- C10: when the experiment list is non-empty but its first entry
carries no id, resolution returns `None` without raising (the create-only
failure is not triggered), caches the empty value, and — the slot being
falsy — a repeat resolution issues the outbound list call again (one
call, not zero); the `Failed to create or retrieve experiment ID` error
arises only on the create branch. -/
theorem experiment_list_entry_without_id (w w₂ : KfpWorld) (st : ResolverState)
    (rest : List (Option String))
    (hl : w.listExperiments = .ok (none :: rest))
    (hc : st.cached_experiment_id = none)
    (hl₂ : w₂.listExperiments = .ok [])
    (hcr₂ : w₂.createExperiment = .ok none) :
    getOrCreateExperimentId w st = (.ok none, st, 1) ∧
    getOrCreateExperimentId w st ≠ (.ok none, st, 0) ∧
    getOrCreateExperimentId w₂ st =
      (.error "Failed to create or retrieve experiment ID from KFP", st, 2) := by
  obtain ⟨e, p⟩ := st
  cases hc
  have h1 : getOrCreateExperimentId w ⟨none, p⟩ = (.ok none, ⟨none, p⟩, 1) := by
    unfold getOrCreateExperimentId
    rw [hl]
    rfl
  have h2 : getOrCreateExperimentId w₂ ⟨none, p⟩ =
      (.error "Failed to create or retrieve experiment ID from KFP", ⟨none, p⟩, 2) := by
    unfold getOrCreateExperimentId
    rw [hl₂, hcr₂]
    rfl
  exact ⟨h1, by rw [h1]; simp, h2⟩

/-- C10 witness: the concrete worlds `wNoId` (non-empty list, first entry
without id) and a create-branch world returning no id. -/
theorem experiment_list_entry_without_id_witness :
    getOrCreateExperimentId wNoId initialResolverState =
      (.ok none, initialResolverState, 1) ∧
    getOrCreateExperimentId wNoId initialResolverState ≠
      (.ok none, initialResolverState, 0) ∧
    getOrCreateExperimentId ⟨.ok [], .ok none, .ok []⟩ initialResolverState =
      (.error "Failed to create or retrieve experiment ID from KFP",
       initialResolverState, 2) :=
  experiment_list_entry_without_id wNoId ⟨.ok [], .ok none, .ok []⟩
    initialResolverState [] rfl rfl rfl rfl

end FinSight
